import Mathlib

/-!
Verification of the quiz-generation pipeline of `streamlit_app.py`
(repository ayazmirza54/quizgenai).

The pipeline is the function `generate_questions(topic, difficulty,
n_questions)`: it builds a prompt, streams a model response while
accumulating text chunks into `full_response`, then parses the
accumulated text with `json.loads` and validates the parsed value
(must be a list whose every element is a dict containing the keys
"question" and "answer").  All failure paths emit diagnostics through
`st.error` / `st.warning` and return the empty list.

The embedding below models Python JSON values, the relevant fragment of
`json.loads`, the validation logic, and the streaming/erroring behavior
of the surrounding code, with diagnostics made explicit as data.
-/

/-- Python JSON values as produced by `json.loads`.  Floats are kept as
their literal text since the program never inspects numeric values. -/
inductive Json where
  | null : Json
  | bool : Bool → Json
  | num : Int → Json
  | flt : String → Json
  | str : String → Json
  | arr : List Json → Json
  | obj : List (String × Json) → Json
deriving Repr

/-- Python type name `type(v).__name__` of a parsed JSON value. -/
def typeName : Json → String
  | Json.null => "NoneType"
  | Json.bool _ => "bool"
  | Json.num _ => "int"
  | Json.flt _ => "float"
  | Json.str _ => "str"
  | Json.arr _ => "list"
  | Json.obj _ => "dict"

/-- Skip JSON whitespace. -/
def skipWs : List Char → List Char
  | [] => []
  | c :: cs => if c = ' ' ∨ c = '\t' ∨ c = '\n' ∨ c = '\r' then skipWs cs else c :: cs

/-- Characters of a JSON string body up to the closing quote, decoding
escapes (the fragment of escapes the program could meet). -/
def parseStringChars : List Char → Option (List Char × List Char)
  | [] => none
  | '"' :: rest => some ([], rest)
  | '\\' :: e :: rest =>
      let dec : Option Char :=
        if e = '"' then some '"'
        else if e = '\\' then some '\\'
        else if e = '/' then some '/'
        else if e = 'n' then some '\n'
        else if e = 't' then some '\t'
        else if e = 'r' then some '\r'
        else if e = 'b' then some (Char.ofNat 8)
        else if e = 'f' then some (Char.ofNat 12)
        else none
      match dec with
      | none => none
      | some c =>
        match parseStringChars rest with
        | none => none
        | some (cs, rem) => some (c :: cs, rem)
  | c :: rest =>
      match parseStringChars rest with
      | none => none
      | some (cs, rem) => some (c :: cs, rem)

/-- Leading decimal digits of the input. -/
def takeDigits : List Char → (List Char × List Char)
  | [] => ([], [])
  | c :: cs =>
      if c.isDigit then
        let p := takeDigits cs
        (c :: p.1, p.2)
      else ([], c :: cs)

/-- Digit characters to a natural number. -/
def digitsToNat (ds : List Char) : Nat :=
  ds.foldl (fun acc c => acc * 10 + (c.toNat - 48)) 0

/-- Parse a JSON number after an optional minus sign has been handled:
returns the value and whether the literal had a fraction or exponent. -/
def parseNumTail (cs : List Char) : Option (Nat × List Char × Bool × List Char) :=
  let p := takeDigits cs
  match p.1 with
  | [] => none
  | d :: ds =>
      if d = '0' ∧ ds ≠ [] then none
      else
        let intDigits := d :: ds
        let afterInt := p.2
        match afterInt with
        | '.' :: cs2 =>
            let q := takeDigits cs2
            match q.1 with
            | [] => none
            | _ =>
              match q.2 with
              | 'e' :: cs3 =>
                  let r := takeDigits (match cs3 with
                    | '+' :: t => t | '-' :: t => t | t => t)
                  match r.1 with
                  | [] => none
                  | _ => some (digitsToNat intDigits, intDigits ++ '.' :: q.1 ++ 'e' :: r.1, true, r.2)
              | 'E' :: cs3 =>
                  let r := takeDigits (match cs3 with
                    | '+' :: t => t | '-' :: t => t | t => t)
                  match r.1 with
                  | [] => none
                  | _ => some (digitsToNat intDigits, intDigits ++ '.' :: q.1 ++ 'E' :: r.1, true, r.2)
              | rest2 => some (digitsToNat intDigits, intDigits ++ '.' :: q.1, true, rest2)
        | 'e' :: cs3 =>
            let r := takeDigits (match cs3 with
              | '+' :: t => t | '-' :: t => t | t => t)
            match r.1 with
            | [] => none
            | _ => some (digitsToNat intDigits, intDigits ++ 'e' :: r.1, true, r.2)
        | 'E' :: cs3 =>
            let r := takeDigits (match cs3 with
              | '+' :: t => t | '-' :: t => t | t => t)
            match r.1 with
            | [] => none
            | _ => some (digitsToNat intDigits, intDigits ++ 'E' :: r.1, true, r.2)
        | rest => some (digitsToNat intDigits, intDigits, false, rest)

mutual

/-- Parse one JSON value (fuel-bounded recursive descent). -/
def parseValue : Nat → List Char → Option (Json × List Char)
  | 0, _ => none
  | fuel + 1, cs =>
    match skipWs cs with
    | [] => none
    | c :: rest =>
      if c = '"' then
        match parseStringChars rest with
        | none => none
        | some (body, rem) => some (Json.str (String.mk body), rem)
      else if c = '[' then
        match skipWs rest with
        | ']' :: rem => some (Json.arr [], rem)
        | cs2 => match parseArrElems fuel cs2 with
          | none => none
          | some (xs, rem) => some (Json.arr xs, rem)
      else if c = '{' then
        match skipWs rest with
        | '}' :: rem => some (Json.obj [], rem)
        | cs2 => match parseObjMembers fuel cs2 with
          | none => none
          | some (fs, rem) => some (Json.obj fs, rem)
      else if c = 't' then
        match rest with
        | 'r' :: 'u' :: 'e' :: rem => some (Json.bool true, rem)
        | _ => none
      else if c = 'f' then
        match rest with
        | 'a' :: 'l' :: 's' :: 'e' :: rem => some (Json.bool false, rem)
        | _ => none
      else if c = 'n' then
        match rest with
        | 'u' :: 'l' :: 'l' :: rem => some (Json.null, rem)
        | _ => none
      else if c = '-' then
        match parseNumTail rest with
        | none => none
        | some (v, lit, isFlt, rem) =>
            some (if isFlt then Json.flt (String.mk ('-' :: lit)) else Json.num (-(v : Int)), rem)
      else if c.isDigit then
        match parseNumTail (c :: rest) with
        | none => none
        | some (v, lit, isFlt, rem) =>
            some (if isFlt then Json.flt (String.mk lit) else Json.num (v : Int), rem)
      else none

/-- Parse the comma-separated elements of a non-empty array, up to and
including the closing bracket. -/
def parseArrElems : Nat → List Char → Option (List Json × List Char)
  | 0, _ => none
  | fuel + 1, cs =>
    match parseValue fuel cs with
    | none => none
    | some (x, rem) =>
      match skipWs rem with
      | ',' :: rest =>
        match parseArrElems fuel rest with
        | none => none
        | some (xs, rem2) => some (x :: xs, rem2)
      | ']' :: rest => some ([x], rest)
      | _ => none

/-- Parse the comma-separated members of a non-empty object, up to and
including the closing brace. -/
def parseObjMembers : Nat → List Char → Option (List (String × Json) × List Char)
  | 0, _ => none
  | fuel + 1, cs =>
    match skipWs cs with
    | '"' :: rest =>
      match parseStringChars rest with
      | none => none
      | some (key, afterKey) =>
        match skipWs afterKey with
        | ':' :: afterColon =>
          match parseValue fuel afterColon with
          | none => none
          | some (v, rem) =>
            match skipWs rem with
            | ',' :: rest2 =>
              match parseObjMembers fuel rest2 with
              | none => none
              | some (fs, rem2) => some ((String.mk key, v) :: fs, rem2)
            | '}' :: rest2 => some ([(String.mk key, v)], rest2)
            | _ => none
        | _ => none
    | _ => none

end

/-- The fragment of Python `json.loads` the program relies on: parse the
whole text as one JSON value, failing (`none`, i.e. `JSONDecodeError`)
on any leftover non-whitespace input or syntax error. -/
def json_loads (s : String) : Option Json :=
  match parseValue (2 * s.length + 2) s.data with
  | none => none
  | some (j, rest) =>
    match skipWs rest with
    | [] => some j
    | _ => none

/-- The per-element check of line 92 of the source:
`isinstance(item, dict) and "question" in item and "answer" in item`. -/
def itemOk : Json → Bool
  | Json.obj fields => fields.any (fun f => f.1 = "question") && fields.any (fun f => f.1 = "answer")
  | _ => false

/-- Outcome of the parse-and-validate phase (lines 84 to 101 of the
source): either the parsed list itself, or one of the three failure
kinds, each carrying the raw accumulated text for its diagnostic. -/
inductive ValidateResult where
  | success : List Json → ValidateResult
  | malformedJSON : String → ValidateResult
  | unexpectedShape : String → String → ValidateResult
  | invalidItem : Json → String → ValidateResult
deriving Repr

/-- Lines 84 to 101 of the source: `json.loads` the raw text (a raise is
the `json.JSONDecodeError` branch), require a list, require every
element to pass `itemOk` (the first offender is reported), and on
success return the parsed list itself. -/
def validate (raw : String) : ValidateResult :=
  match json_loads raw with
  | none => ValidateResult.malformedJSON raw
  | some j =>
    match j with
    | Json.arr items =>
      match items.find? (fun i => !(itemOk i)) with
      | some bad => ValidateResult.invalidItem bad raw
      | none => ValidateResult.success items
    | _ => ValidateResult.unexpectedShape (typeName j) raw

/-- Lines 40 to 46 of the source: the prompt f-string (Python adjacent
string literals concatenate, so the text below is the one string the
source builds). -/
def build_prompt (topic : String) (difficulty : Int) (n_questions : Int) : String :=
  "Generate " ++ toString n_questions ++ " quiz questions on the topic \x27" ++ topic
    ++ "\x27, at difficulty level " ++ toString difficulty ++ "/10. "
    ++ "Respond ONLY with a valid JSON array format, where each element is an object with keys \x27question\x27 (string) and \x27answer\x27 (string)"
    ++ ". Do not include any other text, markdown formatting, or explanations outside the JSON array."

/-- A transport/service error raised by the backend during streaming,
with the optional prompt-feedback payload the handler looks for. -/
structure StreamErr where
  msg : String
  feedback : Option String
deriving Repr

/-- One observed behavior of the response stream: the chunk payloads
delivered before the iteration ended (each `chunk.text`, which may be
absent or empty), and, if the iteration raised instead of finishing,
the error it raised. -/
structure RespStream where
  chunks : List (Option String)
  err : Option StreamErr
deriving Repr

/-- One pass of the accumulation loop body of lines 69 to 72 of the
source: `if chunk.text: full_response += chunk.text`, for a chunk whose
text payload is `c` (absent, empty, or some non-empty text). -/
def appendChunk (acc : String) (c : Option String) : String :=
  match c with
  | some t => if t ≠ "" then acc ++ t else acc
  | none => acc

/-- Lines 69 to 72 of the source: the accumulation loop.  Each chunk
whose text payload is present and non-empty is appended to the buffer
in arrival order; payload-less chunks are skipped. -/
def accumulate (chunks : List (Option String)) : String :=
  chunks.foldl appendChunk ""

/-- One UI diagnostic emitted by the pipeline (a `st.error` or
`st.warning` call), kept structural. -/
inductive Diag where
  | apiError : String → Diag
  | promptSent : String → Diag
  | promptFeedback : String → Diag
  | receivedBeforeError : String → Diag
  | shapeError : String → String → Diag
  | itemError : Json → String → Diag
  | parseError : String → Diag
deriving Repr

/-- What a call of `generate_questions` produces: the Python return
value (always a list) and the diagnostics emitted on the way. -/
structure GenOutput where
  returned : List Json
  diags : List Diag
deriving Repr

/-- Lines 35 to 101 of the source, `generate_questions`: build the
prompt, accumulate the stream, and either handle a streaming error
(diagnostics incl. the prompt, any feedback and any partly accumulated
text, then return `[]`) or validate the accumulated text, every
validation failure again emitting a diagnostic and returning `[]`. -/
def generate_questions (topic : String) (difficulty : Int) (n_questions : Int)
    (stream : RespStream) : GenOutput :=
  let prompt_text := build_prompt topic difficulty n_questions
  let full_response := accumulate stream.chunks
  match stream.err with
  | some e =>
      { returned := [],
        diags := [Diag.apiError e.msg, Diag.promptSent prompt_text]
          ++ (match e.feedback with
              | some f => [Diag.promptFeedback f]
              | none => [])
          ++ (if full_response ≠ "" then [Diag.receivedBeforeError full_response] else []) }
  | none =>
      match validate full_response with
      | ValidateResult.success items => { returned := items, diags := [] }
      | ValidateResult.malformedJSON raw => { returned := [], diags := [Diag.parseError raw] }
      | ValidateResult.unexpectedShape t raw => { returned := [], diags := [Diag.shapeError t raw] }
      | ValidateResult.invalidItem it raw => { returned := [], diags := [Diag.itemError it raw] }

/-- The Python exceptions that can reach `generate_questions`
exception handlers. -/
inductive PyExn where
  | apiExn : StreamErr → PyExn
  | jsonDecodeError : PyExn
deriving Repr

/-- The body of `generate_questions` with its `try/except` handlers
removed: a streaming error or a `json.JSONDecodeError` propagates to
the caller as an exception, while the non-exceptional early returns
(shape check, item check) still return `[]`. -/
def generate_questions_unhandled (stream : RespStream) : Except PyExn (List Json) :=
  match stream.err with
  | some e => Except.error (PyExn.apiExn e)
  | none =>
    match validate (accumulate stream.chunks) with
    | ValidateResult.malformedJSON _ => Except.error PyExn.jsonDecodeError
    | ValidateResult.success items => Except.ok items
    | _ => Except.ok []

/-! ## Helper lemmas -/

theorem join_cons (s : String) (l : List String) :
    String.join (s :: l) = s ++ String.join l := by
  apply String.ext
  simp [String.join_eq]

theorem appendChunk_none (acc : String) : appendChunk acc none = acc := rfl

theorem appendChunk_empty (acc : String) : appendChunk acc (some "") = acc := rfl

theorem appendChunk_some (acc t : String) (ht : t ≠ "") :
    appendChunk acc (some t) = acc ++ t := by
  simp [appendChunk, ht]

theorem accumulate_foldl (chunks : List (Option String)) (acc : String) :
    chunks.foldl appendChunk acc = acc ++ String.join (chunks.filterMap id) := by
  induction chunks generalizing acc with
  | nil => simp [String.join]
  | cons c cs ih =>
    rw [List.foldl_cons]
    cases c with
    | none => simpa [List.filterMap_cons] using ih acc
    | some t =>
      by_cases ht : t = ""
      · subst ht
        rw [appendChunk_empty]
        simpa [List.filterMap_cons, join_cons] using ih acc
      · rw [appendChunk_some acc t ht, List.filterMap_cons]
        simp only [id]
        rw [join_cons, ih (acc ++ t), String.append_assoc]

/-! ## Theorems for the claims -/

/-- C8: building the prompt is deterministic, and the prompt text always
contains the topic, the difficulty value, the requested count, and the
JSON-array-only instruction naming the keys question and answer. -/
theorem build_prompt_deterministic_complete (topic : String) (difficulty n_questions : Int) :
    build_prompt topic difficulty n_questions = build_prompt topic difficulty n_questions ∧
    (∃ a b, build_prompt topic difficulty n_questions = a ++ (topic ++ b)) ∧
    (∃ a b, build_prompt topic difficulty n_questions = a ++ (toString difficulty ++ b)) ∧
    (∃ a b, build_prompt topic difficulty n_questions = a ++ (toString n_questions ++ b)) ∧
    (∃ a b, build_prompt topic difficulty n_questions =
      a ++ ("Respond ONLY with a valid JSON array format, where each element is an object with keys \x27question\x27 (string) and \x27answer\x27 (string)" ++ b)) := by
  refine ⟨rfl, ?_, ?_, ?_, ?_⟩
  · exact ⟨"Generate " ++ toString n_questions ++ " quiz questions on the topic \x27",
      "\x27, at difficulty level " ++ toString difficulty ++ "/10. "
        ++ "Respond ONLY with a valid JSON array format, where each element is an object with keys \x27question\x27 (string) and \x27answer\x27 (string)"
        ++ ". Do not include any other text, markdown formatting, or explanations outside the JSON array.",
      by simp [build_prompt, String.append_assoc]⟩
  · exact ⟨"Generate " ++ toString n_questions ++ " quiz questions on the topic \x27" ++ topic
        ++ "\x27, at difficulty level ",
      "/10. "
        ++ "Respond ONLY with a valid JSON array format, where each element is an object with keys \x27question\x27 (string) and \x27answer\x27 (string)"
        ++ ". Do not include any other text, markdown formatting, or explanations outside the JSON array.",
      by simp [build_prompt, String.append_assoc]⟩
  · exact ⟨"Generate ",
      " quiz questions on the topic \x27" ++ topic
        ++ "\x27, at difficulty level " ++ toString difficulty ++ "/10. "
        ++ "Respond ONLY with a valid JSON array format, where each element is an object with keys \x27question\x27 (string) and \x27answer\x27 (string)"
        ++ ". Do not include any other text, markdown formatting, or explanations outside the JSON array.",
      by simp [build_prompt, String.append_assoc]⟩
  · exact ⟨"Generate " ++ toString n_questions ++ " quiz questions on the topic \x27" ++ topic
        ++ "\x27, at difficulty level " ++ toString difficulty ++ "/10. ",
      ". Do not include any other text, markdown formatting, or explanations outside the JSON array.",
      by simp [build_prompt, String.append_assoc]⟩

/-- C7: the raw text consisting of an empty JSON array validates to a
success carrying the empty list, and the returned value of
`generate_questions` never depends on the requested count (no length
check against the count is performed). -/
theorem validate_empty_array_success_count_free :
    validate "[]" = ValidateResult.success [] ∧
    (generate_questions "t" 1 1 { chunks := [some "[]"], err := none }).diags = [] ∧
    ∀ (topic : String) (difficulty n1 n2 : Int) (s : RespStream),
      (generate_questions topic difficulty n1 s).returned =
        (generate_questions topic difficulty n2 s).returned := by
  refine ⟨rfl, rfl, ?_⟩
  intro topic difficulty n1 n2 s
  obtain ⟨chunks, err⟩ := s
  cases err with
  | none => simp only [generate_questions]
  | some e => rfl

/-- C9: `generate_questions` is total: on every stream behavior it
returns a list; each exception the unhandled body would raise (the
streaming call raising, `json.loads` raising) is caught inside and
turned into the `[]` return, never propagated. -/
theorem generate_questions_never_raises (topic : String) (difficulty n : Int) (s : RespStream) :
    (generate_questions topic difficulty n s).returned =
      (match generate_questions_unhandled s with
       | Except.error _ => []
       | Except.ok items => items) := by
  obtain ⟨chunks, err⟩ := s
  cases err with
  | none =>
    simp only [generate_questions, generate_questions_unhandled]
    cases validate (accumulate chunks) <;> rfl
  | some e => rfl

/-- C4: the accumulated buffer is the in-order concatenation of the
present chunk payloads (payload-less chunks skipped without error, and
an empty payload contributes nothing), so two error-free streams whose
chunks concatenate to the same text give identical pipeline output. -/
theorem accumulate_chunk_boundary_independent :
    (∀ chunks : List (Option String),
        accumulate chunks = String.join (chunks.filterMap id)) ∧
    ∀ (topic : String) (difficulty n : Int) (s1 s2 : RespStream),
      s1.err = none → s2.err = none →
      accumulate s1.chunks = accumulate s2.chunks →
      generate_questions topic difficulty n s1 = generate_questions topic difficulty n s2 := by
  constructor
  · intro chunks
    simpa [accumulate, String.empty_append] using accumulate_foldl chunks ""
  · intro topic difficulty n s1 s2 h1 h2 hacc
    obtain ⟨c1, e1⟩ := s1
    obtain ⟨c2, e2⟩ := s2
    simp only at h1 h2 hacc
    subst h1
    subst h2
    simp only [generate_questions]
    rw [hacc]

/-- Concrete instance: the two-chunk and one-chunk deliveries of the
same array text give identical output (with a payload-less and an
empty chunk skipped on the way). -/
theorem accumulate_chunk_boundary_independent_witness :
    generate_questions "Photosynthesis" 5 2
        { chunks := [some "[\x7b\"question\":\"Q\"", none, some "", some ",\"answer\":\"A\"\x7d]"],
          err := none } =
      generate_questions "Photosynthesis" 5 2
        { chunks := [some "[\x7b\"question\":\"Q\",\"answer\":\"A\"\x7d]"], err := none } :=
  accumulate_chunk_boundary_independent.2 "Photosynthesis" 5 2 _ _ rfl rfl rfl

/-- C6: when the stream raises after some chunks were consumed, the
call returns the empty list (no usable result); the text accumulated
before the error is surfaced, verbatim, only as a diagnostic (exactly
when non-empty), never as the returned result. -/
theorem generate_questions_midstream_error (topic : String) (difficulty n : Int)
    (s : RespStream) (e : StreamErr) (herr : s.err = some e) :
    (generate_questions topic difficulty n s).returned = [] ∧
    (accumulate s.chunks ≠ "" →
      Diag.receivedBeforeError (accumulate s.chunks) ∈
        (generate_questions topic difficulty n s).diags) ∧
    ∀ t, Diag.receivedBeforeError t ∈ (generate_questions topic difficulty n s).diags →
      t = accumulate s.chunks := by
  refine ⟨?_, ?_, ?_⟩
  · simp [generate_questions, herr]
  · intro hne
    simp [generate_questions, herr, hne]
  · intro t ht
    cases hf : e.feedback <;> by_cases hne : accumulate s.chunks = "" <;>
      simp [generate_questions, herr, hf, hne] at ht <;> exact ht

/-- Concrete instance (E2E scenario B): the backend raises after one
chunk of an unterminated array; the call returns `[]` and the partial
text appears among the diagnostics. -/
theorem generate_questions_midstream_error_witness :
    (generate_questions "t" 5 2
        { chunks := [some "[\x7b\"question\":\"Q1\""],
          err := some { msg := "network failure", feedback := none } }).returned = [] ∧
    ("[\x7b\"question\":\"Q1\"" ≠ "" →
      Diag.receivedBeforeError "[\x7b\"question\":\"Q1\"" ∈
        (generate_questions "t" 5 2
          { chunks := [some "[\x7b\"question\":\"Q1\""],
            err := some { msg := "network failure", feedback := none } }).diags) ∧
    ∀ t, Diag.receivedBeforeError t ∈
        (generate_questions "t" 5 2
          { chunks := [some "[\x7b\"question\":\"Q1\""],
            err := some { msg := "network failure", feedback := none } }).diags →
      t = "[\x7b\"question\":\"Q1\"" :=
  generate_questions_midstream_error "t" 5 2
    { chunks := [some "[\x7b\"question\":\"Q1\""],
      err := some { msg := "network failure", feedback := none } }
    { msg := "network failure", feedback := none } rfl

/-- C10: every failure path (stream error or any validation failure)
returns exactly the empty list, which is the very value a successful
validation of the raw text consisting of an empty array returns; the
return value alone cannot distinguish the two. -/
theorem generate_questions_failure_conflated_with_empty (topic : String) (difficulty n : Int)
    (s : RespStream)
    (hfail : s.err ≠ none ∨
      ∀ items, validate (accumulate s.chunks) ≠ ValidateResult.success items) :
    (generate_questions topic difficulty n s).returned = [] ∧
    (generate_questions topic difficulty n s).returned =
      (generate_questions topic difficulty n { chunks := [some "[]"], err := none }).returned := by
  have hret : (generate_questions topic difficulty n s).returned = [] := by
    cases herr : s.err with
    | some e => simp [generate_questions, herr]
    | none =>
      rcases hfail with h | h
      · exact absurd herr h
      · cases hv : validate (accumulate s.chunks) with
        | success items => exact absurd hv (h items)
        | malformedJSON raw => simp [generate_questions, herr, hv]
        | unexpectedShape t raw => simp [generate_questions, herr, hv]
        | invalidItem it raw => simp [generate_questions, herr, hv]
  exact ⟨hret, by rw [hret]; rfl⟩

/-- Concrete instance: a malformed-JSON failure and the successful
empty-array call return the same value, the empty list. -/
theorem generate_questions_failure_conflated_with_empty_witness :
    (generate_questions "t" 5 3 { chunks := [some "not json"], err := none }).returned = [] ∧
    (generate_questions "t" 5 3 { chunks := [some "not json"], err := none }).returned =
      (generate_questions "t" 5 3 { chunks := [some "[]"], err := none }).returned :=
  generate_questions_failure_conflated_with_empty "t" 5 3
    { chunks := [some "not json"], err := none }
    (Or.inr (fun items h => by
      rw [show validate (accumulate
            ({ chunks := [some "not json"], err := none } : RespStream).chunks) =
          ValidateResult.malformedJSON "not json" from rfl] at h
      exact ValidateResult.noConfusion h))

/-- C1: when the raw text parses to a JSON array in which at least one
element fails the required-keys check, validation is an InvalidItem
failure and never a success list: no partial acceptance of the valid
subset. -/
theorem validate_no_partial_acceptance (raw : String) (xs : List Json)
    (hparse : json_loads raw = some (Json.arr xs))
    (hbad : ∃ x ∈ xs, itemOk x = false) :
    (∃ bad, validate raw = ValidateResult.invalidItem bad raw) ∧
    ∀ ys, validate raw ≠ ValidateResult.success ys := by
  have hfind : (xs.find? (fun i => !(itemOk i))).isSome := by
    rw [List.find?_isSome]
    obtain ⟨x, hx, hfalse⟩ := hbad
    exact ⟨x, hx, by simp [hfalse]⟩
  obtain ⟨bad, hb⟩ := Option.isSome_iff_exists.mp hfind
  constructor
  · exact ⟨bad, by simp [validate, hparse, hb]⟩
  · intro ys hcontra
    simp [validate, hparse, hb] at hcontra

/-- Concrete instance: an array holding one well-formed item and one
bad element (a bare number) is rejected outright, not partially
accepted. -/
theorem validate_no_partial_acceptance_witness :
    (∃ bad, validate "[\x7b\"question\":\"q\",\"answer\":\"a\"\x7d,5]" =
        ValidateResult.invalidItem bad "[\x7b\"question\":\"q\",\"answer\":\"a\"\x7d,5]") ∧
    ∀ ys, validate "[\x7b\"question\":\"q\",\"answer\":\"a\"\x7d,5]" ≠
      ValidateResult.success ys :=
  validate_no_partial_acceptance _
    [Json.obj [("question", Json.str "q"), ("answer", Json.str "a")], Json.num 5]
    rfl ⟨Json.num 5, by simp, rfl⟩

/-- C5: a raw text parsing to a JSON array whose every element passes
the element check validates to a success returning exactly the parsed
elements, in their original order (hence exactly N items for an
N-element array). -/
theorem validate_order_count_preserved (raw : String) (xs : List Json)
    (hparse : json_loads raw = some (Json.arr xs))
    (hok : ∀ x ∈ xs, itemOk x = true) :
    validate raw = ValidateResult.success xs := by
  have hfind : xs.find? (fun i => !(itemOk i)) = none := by
    rw [List.find?_eq_none]
    intro x hx
    simp [hok x hx]
  simp [validate, hparse, hfind]

set_option maxRecDepth 8192 in
/-- Concrete instance (E2E scenario A): a two-element array of valid
items validates to exactly those two items in order. -/
theorem validate_order_count_preserved_witness :
    validate "[\x7b\"question\":\"What pigment captures light?\",\"answer\":\"Chlorophyll\"\x7d,\x7b\"question\":\"What gas is released?\",\"answer\":\"Oxygen\"\x7d]" =
      ValidateResult.success
        [Json.obj [("question", Json.str "What pigment captures light?"),
                   ("answer", Json.str "Chlorophyll")],
         Json.obj [("question", Json.str "What gas is released?"),
                   ("answer", Json.str "Oxygen")]] :=
  validate_order_count_preserved _
    [Json.obj [("question", Json.str "What pigment captures light?"),
               ("answer", Json.str "Chlorophyll")],
     Json.obj [("question", Json.str "What gas is released?"),
               ("answer", Json.str "Oxygen")]]
    rfl
    (by
      intro x hx
      simp only [List.mem_cons, List.not_mem_nil, or_false] at hx
      rcases hx with rfl | rfl <;> rfl)

/-- C3: validation attempts the JSON parse first and on failure is
MalformedJSON carrying the raw text verbatim; a parse success that is
not an array is UnexpectedShape carrying the actual type and the raw
text; and on an array neither of those two kinds can occur (the
element check alone decides), so the kinds are mutually exclusive and
decided in that order. -/
theorem validate_failure_taxonomy (raw : String) :
    (json_loads raw = none → validate raw = ValidateResult.malformedJSON raw) ∧
    (∀ j, json_loads raw = some j → (∀ xs, j ≠ Json.arr xs) →
      validate raw = ValidateResult.unexpectedShape (typeName j) raw) ∧
    ∀ xs, json_loads raw = some (Json.arr xs) →
      (∀ ys, validate raw ≠ ValidateResult.malformedJSON ys) ∧
      ∀ t ys, validate raw ≠ ValidateResult.unexpectedShape t ys := by
  refine ⟨?_, ?_, ?_⟩
  · intro h
    simp [validate, h]
  · intro j hj hne
    cases j with
    | arr xs => exact absurd rfl (hne xs)
    | null => simp [validate, hj, typeName]
    | bool b => simp [validate, hj, typeName]
    | num v => simp [validate, hj, typeName]
    | flt v => simp [validate, hj, typeName]
    | str v => simp [validate, hj, typeName]
    | obj fs => simp [validate, hj, typeName]
  · intro xs hj
    constructor
    · intro ys h
      cases hfind : xs.find? (fun i => !(itemOk i)) <;>
        simp [validate, hj, hfind] at h
    · intro t ys h
      cases hfind : xs.find? (fun i => !(itemOk i)) <;>
        simp [validate, hj, hfind] at h

/-- Concrete instances (P6 and E2E scenario C): unparsable text is a
MalformedJSON failure carrying the text verbatim, and a top-level
object is an UnexpectedShape failure naming the dict type. -/
theorem validate_failure_taxonomy_witness :
    validate "not json" = ValidateResult.malformedJSON "not json" ∧
    validate "\x7b\"question\":\"Q\",\"answer\":\"A\"\x7d" =
      ValidateResult.unexpectedShape "dict" "\x7b\"question\":\"Q\",\"answer\":\"A\"\x7d" :=
  ⟨(validate_failure_taxonomy "not json").1 rfl,
   (validate_failure_taxonomy "\x7b\"question\":\"Q\",\"answer\":\"A\"\x7d").2.1
     (Json.obj [("question", Json.str "Q"), ("answer", Json.str "A")]) rfl
     (fun _ h => Json.noConfusion h)⟩

/-- C2 as written fails on the code: an element with an extra key and
non-string values for both required keys is accepted as valid, not
rejected as an InvalidItem failure. -/
theorem validate_item_check_not_strict_cex :
    validate "[\x7b\"question\":1,\"answer\":2,\"extra\":null\x7d]" =
      ValidateResult.success
        [Json.obj [("question", Json.num 1), ("answer", Json.num 2), ("extra", Json.null)]] :=
  rfl

/-- C2 amended: the element check only requires each element to be a
dict containing the keys question and answer; values are not type
checked and extra keys are allowed.  An array validates to a success
exactly when every element passes, and an element passes exactly when
it is an object listing both keys. -/
theorem validate_item_check_membership_only (raw : String) (xs : List Json)
    (hparse : json_loads raw = some (Json.arr xs)) :
    (validate raw = ValidateResult.success xs ↔ ∀ x ∈ xs, itemOk x = true) ∧
    ((∃ x ∈ xs, itemOk x = false) →
      ∃ bad, validate raw = ValidateResult.invalidItem bad raw) ∧
    ∀ x, itemOk x = true ↔
      ∃ fields, x = Json.obj fields ∧
        (∃ p ∈ fields, p.1 = "question") ∧ ∃ p ∈ fields, p.1 = "answer" := by
  refine ⟨?_, ?_, ?_⟩
  · constructor
    · intro h x hx
      by_contra hbad
      rw [Bool.not_eq_true] at hbad
      have hsome : (xs.find? (fun i => !(itemOk i))).isSome := by
        rw [List.find?_isSome]
        exact ⟨x, hx, by simp [hbad]⟩
      obtain ⟨bad, hb⟩ := Option.isSome_iff_exists.mp hsome
      simp [validate, hparse, hb] at h
    · intro hok
      have hfind : xs.find? (fun i => !(itemOk i)) = none := by
        rw [List.find?_eq_none]
        intro x hx
        simp [hok x hx]
      simp [validate, hparse, hfind]
  · intro hbad
    obtain ⟨x, hx, hfalse⟩ := hbad
    have hsome : (xs.find? (fun i => !(itemOk i))).isSome := by
      rw [List.find?_isSome]
      exact ⟨x, hx, by simp [hfalse]⟩
    obtain ⟨bad, hb⟩ := Option.isSome_iff_exists.mp hsome
    exact ⟨bad, by simp [validate, hparse, hb]⟩
  · intro x
    cases x <;> simp [itemOk, List.any_eq_true]

/-- Concrete instance of the amended claim at the permissive element:
it is an object listing both keys, so the array is accepted. -/
theorem validate_item_check_membership_only_witness :
    (validate "[\x7b\"question\":1,\"answer\":2,\"extra\":null\x7d]" =
        ValidateResult.success
          [Json.obj [("question", Json.num 1), ("answer", Json.num 2), ("extra", Json.null)]] ↔
      ∀ x ∈ [Json.obj [("question", Json.num 1), ("answer", Json.num 2), ("extra", Json.null)]],
        itemOk x = true) ∧
    ((∃ x ∈ [Json.obj [("question", Json.num 1), ("answer", Json.num 2), ("extra", Json.null)]],
        itemOk x = false) →
      ∃ bad, validate "[\x7b\"question\":1,\"answer\":2,\"extra\":null\x7d]" =
        ValidateResult.invalidItem bad "[\x7b\"question\":1,\"answer\":2,\"extra\":null\x7d]") ∧
    ∀ x, itemOk x = true ↔
      ∃ fields, x = Json.obj fields ∧
        (∃ p ∈ fields, p.1 = "question") ∧ ∃ p ∈ fields, p.1 = "answer" :=
  validate_item_check_membership_only _
    [Json.obj [("question", Json.num 1), ("answer", Json.num 2), ("extra", Json.null)]] rfl
